import Mathlib

/-!
Verification development for the journal session state machine
(bkase/journal). The data model, reducer (`update`), error-recovery
policy (`error_recovery`), driver-loop fallback handling, input parsing
and mood extraction are shallowly embedded below, translated from
src/journal/src/{state,error,action,update,effects,main}.rs.

Modelling conventions:
- `Uuid` is modelled as `String`; the reducer's calls to `Uuid::new_v4()`
  are modelled by an explicit `fresh : Uuid` argument to `update`.
- timestamps (`chrono::DateTime<Utc>`, produced by `Utc::now()`) are
  modelled as `Nat`; the reducer's clock reads are an explicit
  `now : Timestamp` argument.
- Rust `String`/`&str` are Lean `String`; `str::contains`, `str::trim`
  and `str::to_lowercase` are modelled by executable list-of-char
  functions below (ASCII-faithful, which covers every keyword and
  command the program matches on).
-/

namespace Journal

abbrev Uuid := String

abbrev Timestamp := Nat

/-- SessionMode from state.rs. -/
inductive SessionMode where
| morning
| evening
deriving DecidableEq

/-- Speaker from state.rs. -/
inductive Speaker where
| user
| coach
| system
deriving DecidableEq

/-- TranscriptEntry from state.rs. -/
structure TranscriptEntry where
  timestamp : Timestamp
  speaker : Speaker
  content : String
deriving DecidableEq

/-- SessionMetadata from state.rs. The `custom_fields` HashMap of
serde_json values is modelled as an association list of strings; the
reducer never reads or writes it. -/
structure SessionMetadata where
  session_doc_id : Option Uuid
  final_entry_id : Option Uuid
  completed_at : Option Timestamp
  custom_fields : List (String × String)
deriving DecidableEq

/-- JournalSession from state.rs. -/
structure JournalSession where
  mode : SessionMode
  transcript : List TranscriptEntry
  metadata : SessionMetadata
deriving DecidableEq

/-- WriteResult from state.rs. -/
structure WriteResult where
  entry_id : Uuid
  entry_path : String
  session_completed : Bool
deriving DecidableEq

/-- Error from error.rs (the eleven variants of the `Error` enum). -/
inductive Error where
| aethel (message : String)
| io (message : String)
| json (message : String)
| aiAnalysis (msg : String)
| sessionNotFound (session_id : String)
| invalidSessionState (reason : String)
| vaultOperation (operation : String)
| claudeExecution (message : String)
| config (msg : String)
| userInput (msg : String)
| system (msg : String)
deriving DecidableEq

/-- State from state.rs. The `Error` variant carries the structured
`Error` value, as required by every constructor site in update.rs
(`State::Error(Error::system(..))`, `State::Error(error.clone())`);
the stale `Error(String)` payload in the snapshot's state.rs would not
compile against update.rs. -/
inductive State where
| initializing
| promptingForNew
| inSession (session : JournalSession)
| analyzing (session : JournalSession)
| analysisReady (session : JournalSession) (analysis : String)
| done (result : WriteResult)
| error (e : Error)
deriving DecidableEq

/-- Action as consumed by update.rs and produced by effects.rs/main.rs:
Start, Resume, SelectMode, UserResponse, CoachResponse, NextQuestion,
Stop, AnalysisComplete, FinalEntryCreated, plus the error-carrying
variant. The action.rs in the snapshot is stale (it lacks `Stop`,
`AnalysisComplete` and `FinalEntryCreated`, which update.rs matches
on); the variant set here is exactly the one update.rs, effects.rs and
main.rs use, which also matches the spec's closed union. -/
inductive Action where
| start
| resume (session_id : Uuid)
| selectMode (mode : SessionMode)
| userResponse (text : String)
| coachResponse (text : String)
| nextQuestion
| stop
| analysisComplete (analysis : String)
| finalEntryCreated (entry_path : String) (analysis : String)
| error (msg : String)
deriving DecidableEq

/-- Effect from effects.rs, extended with the four display effects that
update.rs constructs (`ShowError`, `ShowMessage`, `ShowAnalysis`,
`ShowModePrompt`); the snapshot's effects.rs enum is stale and lacks
them. `InitializeVault`'s `PathBuf` is modelled as `String`. -/
inductive Effect where
| saveSession (session : JournalSession)
| loadSession (session_id : Uuid)
| clearIndex
| requestCoachResponse (session : JournalSession) (user_response : String)
| generateAnalysis (session : JournalSession)
| createFinalEntry (session : JournalSession) (entry_id : Uuid) (analysis : String)
| initializeVault (path : String)
| showError (msg : String)
| showMessage (msg : String)
| showAnalysis (text : String)
| showModePrompt
deriving DecidableEq

/-- ASCII whitespace test, modelling what `str::trim` strips for the
inputs this program compares against (space, tab, newline, carriage
return). -/
def is_ws (c : Char) : Bool :=
  c = ' ' || c = '\t' || c = '\n' || c = '\r'

/-- Models Rust `str::trim`: drop whitespace from both ends. -/
def trim_str (s : String) : String :=
  ⟨((s.data.dropWhile is_ws).reverse.dropWhile is_ws).reverse⟩

/-- Models Rust `str::to_lowercase` (ASCII range, which covers all
keywords the program matches). -/
def lower_str (s : String) : String :=
  ⟨s.data.map Char.toLower⟩

/-- Does the character list start with the pattern? -/
def starts_with : List Char → List Char → Bool
| _, [] => true
| [], _ :: _ => false
| c :: cs, p :: ps => c = p && starts_with cs ps

/-- Does the pattern occur as a contiguous substring? -/
def contains_sub : List Char → List Char → Bool
| [], pat => pat.isEmpty
| c :: cs, pat => starts_with (c :: cs) pat || contains_sub cs pat

/-- Models Rust `str::contains` with a string pattern. -/
def str_contains (s pat : String) : Bool :=
  contains_sub s.data pat.data

/-- First index (in characters) at which the pattern occurs. -/
def first_sub_idx : List Char → List Char → Option Nat
| [], pat => if pat.isEmpty then some 0 else none
| c :: cs, pat =>
  if starts_with (c :: cs) pat then some 0
  else (first_sub_idx cs pat).map (· + 1)

/-- First occurrence position of `pat` in `s`. -/
def first_sub_pos (s pat : String) : Option Nat :=
  first_sub_idx s.data pat.data

/-- Earliest occurrence position of any keyword of a family in `s`
(`none` when no keyword of the family occurs). -/
def family_first_pos (s : String) (kws : List String) : Option Nat :=
  kws.foldr
    (fun kw acc =>
      match first_sub_pos s kw, acc with
      | none, a => a
      | some i, none => some i
      | some i, some j => some (min i j))
    none

/-- JournalSession::new from state.rs. -/
def JournalSession.new (mode : SessionMode) : JournalSession :=
  { mode := mode
    transcript := []
    metadata :=
      { session_doc_id := none
        final_entry_id := none
        completed_at := none
        custom_fields := [] } }

/-- JournalSession::add_entry from state.rs; `now` models the
`Utc::now()` call that stamps the entry. -/
def JournalSession.add_entry (s : JournalSession) (now : Timestamp)
    (speaker : Speaker) (content : String) : JournalSession :=
  { s with transcript := s.transcript ++ [⟨now, speaker, content⟩] }

/-- JournalSession::mark_completed from state.rs; `now` models
`Utc::now()`. -/
def JournalSession.mark_completed (s : JournalSession) (now : Timestamp) :
    JournalSession :=
  { s with metadata := { s.metadata with completed_at := some now } }

/-- JournalSession::get_user_responses from state.rs: the transcript
filtered to User-authored entries, in transcript order. -/
def get_user_responses (s : JournalSession) : List TranscriptEntry :=
  s.transcript.filter (fun e =>
    match e.speaker with
    | Speaker.user => true
    | _ => false)

/-- Display rendering of Error from the thiserror attributes in
error.rs. -/
def Error.display : Error → String
| .aethel message => "Aethel operation failed: " ++ message
| .io message => "IO operation failed: " ++ message
| .json message => "JSON serialization failed: " ++ message
| .aiAnalysis m => "AI analysis failed: " ++ m
| .sessionNotFound session_id => "Session not found: " ++ session_id
| .invalidSessionState reason => "Invalid session state: " ++ reason
| .vaultOperation operation => "Vault operation failed: " ++ operation
| .claudeExecution message => "Claude CLI execution failed: " ++ message
| .config m => "Configuration error: " ++ m
| .userInput m => "User input error: " ++ m
| .system m => "System error: " ++ m

/-- The fallback analysis text built identically in update.rs
(error_recovery) and main.rs (process_action) when an AI failure is
downgraded; the trailing `{}` of the format string is the Display
rendering of the error. -/
def fallback_analysis (e : Error) : String :=
  "**AI Analysis Unavailable**\n\nThe AI analysis feature encountered an error and is currently unavailable. Your journal session has been saved successfully.\n\nError details: " ++ e.display

/-- Debug rendering of a Rust String (quoted; escaping of interior
characters is not modelled — no theorem depends on it). -/
def debug_string (s : String) : String := "\"" ++ s ++ "\""

/-- Debug rendering of SessionMode. -/
def debug_mode : SessionMode → String
| .morning => "Morning"
| .evening => "Evening"

/-- Debug rendering of Speaker. -/
def debug_speaker : Speaker → String
| .user => "User"
| .coach => "Coach"
| .system => "System"

/-- Debug rendering of an Option, as derived in Rust. -/
def debug_option (f : α → String) : Option α → String
| none => "None"
| some a => "Some(" ++ f a ++ ")"

/-- Debug rendering of a TranscriptEntry (timestamps are rendered as
the model's Nat; no theorem depends on this text). -/
def debug_entry (e : TranscriptEntry) : String :=
  "TranscriptEntry \x7b timestamp: " ++ toString e.timestamp ++
  ", speaker: " ++ debug_speaker e.speaker ++
  ", content: " ++ debug_string e.content ++ " \x7d"

/-- Debug rendering of a list as a Rust Vec. -/
def debug_list (f : α → String) (l : List α) : String :=
  "[" ++ String.intercalate ", " (l.map f) ++ "]"

/-- Debug rendering of SessionMetadata. -/
def debug_metadata (m : SessionMetadata) : String :=
  "SessionMetadata \x7b session_doc_id: " ++ debug_option id m.session_doc_id ++
  ", final_entry_id: " ++ debug_option id m.final_entry_id ++
  ", completed_at: " ++ debug_option toString m.completed_at ++
  ", custom_fields: \x7b" ++
  String.intercalate ", "
    (m.custom_fields.map (fun p => debug_string p.1 ++ ": " ++ debug_string p.2)) ++
  "\x7d \x7d"

/-- Debug rendering of a JournalSession. -/
def debug_session (s : JournalSession) : String :=
  "JournalSession \x7b mode: " ++ debug_mode s.mode ++
  ", transcript: " ++ debug_list debug_entry s.transcript ++
  ", metadata: " ++ debug_metadata s.metadata ++ " \x7d"

/-- Debug rendering of a WriteResult. -/
def debug_write_result (w : WriteResult) : String :=
  "WriteResult \x7b entry_id: " ++ w.entry_id ++
  ", entry_path: " ++ debug_string w.entry_path ++
  ", session_completed: " ++ (if w.session_completed then "true" else "false") ++ " \x7d"

/-- Debug rendering of Error (derived Debug shape). -/
def debug_error : Error → String
| .aethel message => "Aethel \x7b message: " ++ debug_string message ++ " \x7d"
| .io message => "Io \x7b message: " ++ debug_string message ++ " \x7d"
| .json message => "Json \x7b message: " ++ debug_string message ++ " \x7d"
| .aiAnalysis m => "AiAnalysis(" ++ debug_string m ++ ")"
| .sessionNotFound session_id =>
  "SessionNotFound \x7b session_id: " ++ debug_string session_id ++ " \x7d"
| .invalidSessionState reason =>
  "InvalidSessionState \x7b reason: " ++ debug_string reason ++ " \x7d"
| .vaultOperation operation =>
  "VaultOperation \x7b operation: " ++ debug_string operation ++ " \x7d"
| .claudeExecution message =>
  "ClaudeExecution \x7b message: " ++ debug_string message ++ " \x7d"
| .config m => "Config(" ++ debug_string m ++ ")"
| .userInput m => "UserInput(" ++ debug_string m ++ ")"
| .system m => "System(" ++ debug_string m ++ ")"

/-- Debug rendering of Action. -/
def debug_action : Action → String
| .start => "Start"
| .resume session_id => "Resume(" ++ session_id ++ ")"
| .selectMode mode => "SelectMode(" ++ debug_mode mode ++ ")"
| .userResponse text => "UserResponse(" ++ debug_string text ++ ")"
| .coachResponse text => "CoachResponse(" ++ debug_string text ++ ")"
| .nextQuestion => "NextQuestion"
| .stop => "Stop"
| .analysisComplete analysis => "AnalysisComplete(" ++ debug_string analysis ++ ")"
| .finalEntryCreated entry_path analysis =>
  "FinalEntryCreated \x7b entry_path: " ++ debug_string entry_path ++
  ", analysis: " ++ debug_string analysis ++ " \x7d"
| .error m => "Error(" ++ debug_string m ++ ")"

/-- Debug rendering of State. -/
def debug_state : State → String
| .initializing => "Initializing"
| .promptingForNew => "PromptingForNew"
| .inSession s => "InSession(" ++ debug_session s ++ ")"
| .analyzing s => "Analyzing(" ++ debug_session s ++ ")"
| .analysisReady s a =>
  "AnalysisReady \x7b session: " ++ debug_session s ++
  ", analysis: " ++ debug_string a ++ " \x7d"
| .done w => "Done(" ++ debug_write_result w ++ ")"
| .error e => "Error(" ++ debug_error e ++ ")"

/-- The message built by update.rs's catch-all arm:
format!("Invalid action \x7baction:?\x7d for state \x7bstate:?\x7d"). -/
def invalid_transition_reason (st : State) (a : Action) : String :=
  "Invalid action " ++ debug_action a ++ " for state " ++ debug_state st

/-- error_recovery from update.rs: classify the error and produce the
recovery state and effects. -/
def error_recovery (e : Error) (context : State) : State × List Effect :=
  match e with
  | .aiAnalysis _ | .claudeExecution _ =>
    match context with
    | .analyzing session =>
      (State.analyzing session,
       [Effect.showError e.display,
        Effect.showAnalysis (fallback_analysis e)])
    | _ =>
      (State.error e, [Effect.showError e.display])
  | .sessionNotFound session_id =>
    (State.promptingForNew,
     [Effect.showError ("Session " ++ session_id ++ " not found"),
      Effect.showMessage "🔄 Starting a new session...",
      Effect.showModePrompt])
  | .vaultOperation operation =>
    (State.error e,
     [Effect.showError ("Vault operation failed: " ++ operation),
      Effect.showMessage "💾 Please check file permissions and disk space."])
  | .invalidSessionState reason =>
    (State.promptingForNew,
     [Effect.showError ("Session state error: " ++ reason),
      Effect.showMessage "🔄 Attempting to recover by starting fresh...",
      Effect.showModePrompt])
  | .aethel message | .io message | .json message =>
    (State.error e,
     [Effect.showError ("System error: " ++ message),
      Effect.showMessage "⚠️  This is a system-level error that may require attention."])
  | .config msg =>
    (State.error e,
     [Effect.showError ("Configuration error: " ++ msg),
      Effect.showMessage "⚙️  Please check your configuration settings."])
  | .userInput msg =>
    (context,
     [Effect.showError ("Input error: " ++ msg),
      Effect.showMessage "💬 Please try entering your input again."])
  | .system msg =>
    (State.error e, [Effect.showError ("System error: " ++ msg)])

/-- The reducer `update` from update.rs. `now` models the wall-clock
reads (`Utc::now()`) used to stamp transcript entries and the
completion time; `fresh` models the `Uuid::new_v4()` allocation of the
single transition arm that generates an identifier in this call. Arms
appear in source order. -/
def update (now : Timestamp) (fresh : Uuid) (state : State) (action : Action) :
    State × List Effect :=
  match state, action with
  | .initializing, .start => (State.promptingForNew, [])
  | .initializing, .resume session_id =>
    (State.initializing, [Effect.loadSession session_id])
  | .promptingForNew, .selectMode mode =>
    let session :=
      (JournalSession.new mode).add_entry now Speaker.system
        ("Starting " ++
          (match mode with
           | SessionMode.morning => "morning"
           | SessionMode.evening => "evening") ++
          " journal session")
    (State.inSession session, [Effect.saveSession session])
  | .inSession session, .userResponse response =>
    let session := session.add_entry now Speaker.user response
    (State.inSession session,
     [Effect.saveSession session,
      Effect.requestCoachResponse session response])
  | .inSession session, .coachResponse response =>
    let session := session.add_entry now Speaker.coach response
    (State.inSession session, [Effect.saveSession session])
  | .inSession session, .nextQuestion => (State.inSession session, [])
  | .inSession session, .stop =>
    let session := session.mark_completed now
    (State.analyzing session,
     [Effect.saveSession session, Effect.generateAnalysis session])
  | .analyzing session, .analysisComplete analysis =>
    (State.analysisReady session analysis,
     [Effect.createFinalEntry session fresh analysis])
  | .analyzing _, .stop =>
    (State.done
       { entry_id := fresh
         entry_path := "entry_" ++ fresh ++ ".md"
         session_completed := true },
     [Effect.clearIndex])
  | .analysisReady _ _, .finalEntryCreated entry_path _ =>
    (State.done
       { entry_id := fresh
         entry_path := entry_path
         session_completed := true },
     [Effect.clearIndex])
  | .initializing, .userResponse _ =>
    (State.error (Error.system "Session load not implemented yet"), [])
  | st, a =>
    error_recovery (Error.invalidSessionState (invalid_transition_reason st a)) st

/-- The error branch of JournalApp::process_action in main.rs, as a
pure function of the current state, the effect whose run failed, and
the error it failed with. Only the AI-error branch changes the machine:
when a `GenerateAnalysis` effect fails with `AiAnalysis` or
`ClaudeExecution`, the driver builds the fallback analysis text and
feeds `AnalysisComplete(fallback)` back into the reducer. Every other
branch only prints and leaves the state unchanged with no effects. -/
def process_effect_error (now : Timestamp) (fresh : Uuid) (state : State)
    (failed : Effect) (e : Error) : State × List Effect :=
  match e with
  | .aiAnalysis _ | .claudeExecution _ =>
    match failed with
    | .generateAnalysis _ =>
      update now fresh state (Action.analysisComplete (fallback_analysis e))
    | _ => (state, [])
  | _ => (state, [])

/-- InputContext as referenced by JournalApp::run in main.rs
(mode-selection for `PromptingForNew`, in-session for `InSession`). -/
inductive InputContext where
| modeSelection
| inSession
deriving DecidableEq

/-- Modelled from the spec: the context-sensitive input grammar of
`UserInput::new_with_context`, which main.rs calls but whose definition
is absent from the snapshot's action.rs (that file only holds a stale
context-free parser). Per spec sections 3 and 8: in mode-selection
context, blank input maps to NextQuestion, the listed strings
"m"/"morning"/"M" map to SelectMode(Morning) and "e"/"evening" to
SelectMode(Evening), and anything else to UserResponse of the trimmed
text; in in-session context, "s"/"stop" in any letter case map to Stop,
blank to NextQuestion, and anything else (including the mode words) to
UserResponse of the trimmed text. -/
def parse_input_with_context (input : String) (ctx : InputContext) : Action :=
  let trimmed := trim_str input
  if trimmed = "" then Action.nextQuestion
  else
    match ctx with
    | InputContext.modeSelection =>
      if trimmed = "m" ∨ trimmed = "morning" ∨ trimmed = "M" then
        Action.selectMode SessionMode.morning
      else if trimmed = "e" ∨ trimmed = "evening" then
        Action.selectMode SessionMode.evening
      else Action.userResponse trimmed
    | InputContext.inSession =>
      if lower_str trimmed = "s" ∨ lower_str trimmed = "stop" then Action.stop
      else Action.userResponse trimmed

/-- The per-entry keyword check inside extract_mood_from_session in
effects.rs: the happy family is tested first, then the sad family, then
the neutral family, each by substring containment in the lowercased
content. -/
def mood_keyword_check (content : String) : Option String :=
  if str_contains content "happy" || str_contains content "great" ||
     str_contains content "wonderful" then some "positive"
  else if str_contains content "sad" || str_contains content "difficult" ||
     str_contains content "hard" then some "challenging"
  else if str_contains content "okay" || str_contains content "fine" ||
     str_contains content "neutral" then some "neutral"
  else none

/-- The scanning loop of extract_mood_from_session: first entry whose
lowercased content matches any family decides the mood. -/
def extract_mood_loop : List TranscriptEntry → Option String
| [] => none
| e :: rest =>
  match mood_keyword_check (lower_str e.content) with
  | some m => some m
  | none => extract_mood_loop rest

/-- extract_mood_from_session from effects.rs: scan the User-authored
entries in transcript order. -/
def extract_mood_from_session (s : JournalSession) : Option String :=
  extract_mood_loop (get_user_responses s)

/-- The entry path returned by EffectRunner::create_final_entry in
effects.rs: format!("docs/\x7b\x7d.md", write_result.uuid). -/
def final_entry_path (u : Uuid) : String :=
  "docs/" ++ u ++ ".md"

/-- The sessions carried by a state. -/
def state_sessions : State → List JournalSession
| .inSession s => [s]
| .analyzing s => [s]
| .analysisReady s _ => [s]
| _ => []

/-- The sessions embedded in an effect. -/
def effect_sessions : Effect → List JournalSession
| .saveSession s => [s]
| .requestCoachResponse s _ => [s]
| .generateAnalysis s => [s]
| .createFinalEntry s _ _ => [s]
| _ => []

/-- All sessions carried by a reducer result (next state plus emitted
effects). -/
def result_sessions (r : State × List Effect) : List JournalSession :=
  state_sessions r.1 ++ r.2.flatMap effect_sessions

/-- Effects that print something for the user (error or notice). -/
def is_user_notice : Effect → Bool
| .showError _ => true
| .showMessage _ => true
| .showAnalysis _ => true
| .showModePrompt => true
| _ => false

/-- Concrete transcript entry used to exercise the mood-extraction
claims. -/
def c5_entry0 : TranscriptEntry := ⟨0, Speaker.user, "nothing here"⟩

/-- Concrete transcript entry whose content holds a happy-family
keyword. -/
def c5_entry1 : TranscriptEntry := ⟨1, Speaker.user, "I feel great"⟩

/-- Concrete session with one keyword-free User entry followed by one
happy-keyword User entry. -/
def c5_session : JournalSession :=
  ⟨SessionMode.morning, [c5_entry0, c5_entry1], ⟨none, none, none, []⟩⟩

/-- Concrete session whose single User entry holds a sad-family keyword
strictly before a happy-family keyword. -/
def c5_mixed_session : JournalSession :=
  ⟨SessionMode.morning, [⟨0, Speaker.user, "I feel sad but also great"⟩],
   ⟨none, none, none, []⟩⟩

/-- C6: from InSession, Stop transitions to Analyzing carrying the
session with `metadata.completed_at` stamped (everything else intact)
and emits exactly [SaveSession, GenerateAnalysis] on that session, in
that order. -/
theorem C6_stop_saves_then_analyzes :
    ∀ (now : Timestamp) (fresh : Uuid) (s : JournalSession),
    update now fresh (State.inSession s) Action.stop =
      (State.analyzing (s.mark_completed now),
       [Effect.saveSession (s.mark_completed now),
        Effect.generateAnalysis (s.mark_completed now)]) ∧
    (s.mark_completed now).metadata.completed_at = some now ∧
    (s.mark_completed now).transcript = s.transcript ∧
    (s.mark_completed now).mode = s.mode ∧
    (s.mark_completed now).metadata.session_doc_id = s.metadata.session_doc_id := by
  intro now fresh s
  exact ⟨rfl, rfl, rfl, rfl, rfl⟩

/-- C10: from Analyzing, Stop is handled by its own arm: it goes
straight to Done with the freshly generated id, the synthetic path
"entry_<id>.md" and session_completed = true, emitting only ClearIndex
(no GenerateAnalysis, no CreateFinalEntry); and that synthetic path
differs from every path the effect runner's create_final_entry can
return ("docs/<uuid>.md"). -/
theorem C10_analyzing_stop_shortcut :
    ∀ (now : Timestamp) (fresh : Uuid) (s : JournalSession),
    update now fresh (State.analyzing s) Action.stop =
      (State.done
         { entry_id := fresh
           entry_path := "entry_" ++ fresh ++ ".md"
           session_completed := true },
       [Effect.clearIndex]) ∧
    ∀ u : Uuid, "entry_" ++ fresh ++ ".md" ≠ final_entry_path u := by
  intro now fresh s
  refine ⟨rfl, ?_⟩
  intro u h
  have hE : ("entry_" ++ fresh ++ ".md").data.head? = some 'e' := rfl
  have hD : (final_entry_path u).data.head? = some 'd' := rfl
  rw [h] at hE
  rw [hD] at hE
  exact absurd hE (by decide)

/-- C10 witness: the theorem applied at a concrete clock value, id and
session. -/
theorem C10_analyzing_stop_shortcut_witness :
    update 0 "abc" (State.analyzing (JournalSession.new SessionMode.morning))
        Action.stop =
      (State.done
         { entry_id := "abc"
           entry_path := "entry_" ++ "abc" ++ ".md"
           session_completed := true },
       [Effect.clearIndex]) ∧
    "entry_" ++ "abc" ++ ".md" ≠ final_entry_path "xyz" :=
  ⟨(C10_analyzing_stop_shortcut 0 "abc" (JournalSession.new SessionMode.morning)).1,
   (C10_analyzing_stop_shortcut 0 "abc" (JournalSession.new SessionMode.morning)).2 "xyz"⟩

/-- C2: when a GenerateAnalysis effect fails in state Analyzing(s) with
an AiAnalysis or ClaudeExecution error, the driver's recovery equals
feeding AnalysisComplete(fallback) to the reducer, which lands in
AnalysisReady and still emits the CreateFinalEntry effect for the
session. -/
theorem C2_ai_failure_fallback :
    ∀ (now : Timestamp) (fresh : Uuid) (s : JournalSession) (msg : String),
    process_effect_error now fresh (State.analyzing s)
        (Effect.generateAnalysis s) (Error.aiAnalysis msg) =
      (State.analysisReady s (fallback_analysis (Error.aiAnalysis msg)),
       [Effect.createFinalEntry s fresh (fallback_analysis (Error.aiAnalysis msg))]) ∧
    process_effect_error now fresh (State.analyzing s)
        (Effect.generateAnalysis s) (Error.claudeExecution msg) =
      (State.analysisReady s (fallback_analysis (Error.claudeExecution msg)),
       [Effect.createFinalEntry s fresh (fallback_analysis (Error.claudeExecution msg))]) ∧
    process_effect_error now fresh (State.analyzing s)
        (Effect.generateAnalysis s) (Error.aiAnalysis msg) =
      update now fresh (State.analyzing s)
        (Action.analysisComplete (fallback_analysis (Error.aiAnalysis msg))) ∧
    process_effect_error now fresh (State.analyzing s)
        (Effect.generateAnalysis s) (Error.claudeExecution msg) =
      update now fresh (State.analyzing s)
        (Action.analysisComplete (fallback_analysis (Error.claudeExecution msg))) := by
  intro now fresh s msg
  exact ⟨rfl, rfl, rfl, rfl⟩

/-- C4: routing an invalid-state-transition error or a session-not-found
error through error_recovery yields PromptingForNew, whatever the
context state, and the emitted effects contain user-visible
error/notice output. -/
theorem C4_restart_recovery :
    ∀ (reason sid : String) (ctx : State),
    error_recovery (Error.invalidSessionState reason) ctx =
      (State.promptingForNew,
       [Effect.showError ("Session state error: " ++ reason),
        Effect.showMessage "🔄 Attempting to recover by starting fresh...",
        Effect.showModePrompt]) ∧
    (error_recovery (Error.invalidSessionState reason) ctx).2.any is_user_notice = true ∧
    error_recovery (Error.sessionNotFound sid) ctx =
      (State.promptingForNew,
       [Effect.showError ("Session " ++ sid ++ " not found"),
        Effect.showMessage "🔄 Starting a new session...",
        Effect.showModePrompt]) ∧
    (error_recovery (Error.sessionNotFound sid) ctx).2.any is_user_notice = true := by
  intro reason sid ctx
  exact ⟨rfl, rfl, rfl, rfl⟩

/-- C1: evaluating the reducer on the claim's terminal states shows the
divergence: an action arriving in Done or Error falls to the catch-all,
which builds an InvalidSessionState error, and error_recovery routes
that to PromptingForNew with three notice effects — not to an Error
state as the claim (and the repository's own test_invalid_transitions,
which expects Error with no effects) states. -/
theorem C1_terminal_states_divergence :
    ∀ (now : Timestamp) (fresh : Uuid) (w : WriteResult) (x : String)
      (e : Error) (a : Action),
    (update now fresh (State.done w) (Action.userResponse x)).1 =
      State.promptingForNew ∧
    (update now fresh (State.done w) (Action.userResponse x)).2.length = 3 ∧
    (update now fresh (State.error e) a).1 = State.promptingForNew ∧
    (update now fresh (State.error e) a).2.length = 3 := by
  intro now fresh w x e a
  refine ⟨rfl, rfl, ?_, ?_⟩ <;> cases a <;> rfl

/-- C8: evaluating the reducer at the follow-up action a successful
LoadSession yields shows the divergence: from Initializing,
UserResponse("session_loaded") transitions into the terminal Error
state with the placeholder message, instead of continuing the resumed
session. -/
theorem C8_session_loaded_divergence :
    ∀ (now : Timestamp) (fresh : Uuid),
    update now fresh State.initializing (Action.userResponse "session_loaded") =
      (State.error (Error.system "Session load not implemented yet"), []) := by
  intro now fresh
  rfl

/-- Lowercasing the empty string gives the empty string. -/
theorem lower_str_empty : lower_str "" = "" := rfl

/-- A string whose lowercasing is nonempty is nonempty. -/
theorem ne_empty_of_lower_eq (t : String) (w : String)
    (hw : w ≠ "") (h : lower_str t = w) : t ≠ "" := by
  intro he
  rw [he, lower_str_empty] at h
  exact hw h.symm

/-- C3: in-session parsing. Blank (empty or whitespace-only) input
parses to NextQuestion; "s" or "stop" in any letter case parses to
Stop; every other input — including the mode words "m", "morning", "e"
and "evening" — parses to UserResponse of the trimmed text. -/
theorem C3_in_session_parsing :
    ∀ input : String,
    (trim_str input = "" →
      parse_input_with_context input InputContext.inSession = Action.nextQuestion) ∧
    (lower_str (trim_str input) = "s" ∨ lower_str (trim_str input) = "stop" →
      parse_input_with_context input InputContext.inSession = Action.stop) ∧
    (trim_str input ≠ "" → lower_str (trim_str input) ≠ "s" →
      lower_str (trim_str input) ≠ "stop" →
      parse_input_with_context input InputContext.inSession =
        Action.userResponse (trim_str input)) ∧
    parse_input_with_context "m" InputContext.inSession = Action.userResponse "m" ∧
    parse_input_with_context "morning" InputContext.inSession =
      Action.userResponse "morning" ∧
    parse_input_with_context "e" InputContext.inSession = Action.userResponse "e" ∧
    parse_input_with_context "evening" InputContext.inSession =
      Action.userResponse "evening" := by
  intro input
  refine ⟨?_, ?_, ?_, by decide, by decide, by decide, by decide⟩
  · intro h
    simp only [parse_input_with_context]
    rw [if_pos h]
  · intro h
    have hne : trim_str input ≠ "" := by
      rcases h with h | h
      · exact ne_empty_of_lower_eq _ "s" (by decide) h
      · exact ne_empty_of_lower_eq _ "stop" (by decide) h
    simp only [parse_input_with_context]
    rw [if_neg hne, if_pos h]
  · intro h1 h2 h3
    simp only [parse_input_with_context]
    rw [if_neg h1, if_neg (by exact fun h => h.elim h2 h3)]

/-- C3 witness: the theorem applied at the concrete input "  StOp ". -/
theorem C3_in_session_parsing_witness :
    (lower_str (trim_str "  StOp ") = "s" ∨
     lower_str (trim_str "  StOp ") = "stop") ∧
    parse_input_with_context "  StOp " InputContext.inSession = Action.stop :=
  ⟨by decide, (C3_in_session_parsing "  StOp ").2.1 (by decide)⟩

/-- C7: mode-selection parsing. Blank input parses to NextQuestion;
"m", "morning" or "M" parses to SelectMode(Morning); "e" or "evening"
parses to SelectMode(Evening); every other input parses to UserResponse
of the trimmed text. -/
theorem C7_mode_selection_parsing :
    ∀ input : String,
    (trim_str input = "" →
      parse_input_with_context input InputContext.modeSelection =
        Action.nextQuestion) ∧
    (trim_str input = "m" ∨ trim_str input = "morning" ∨ trim_str input = "M" →
      parse_input_with_context input InputContext.modeSelection =
        Action.selectMode SessionMode.morning) ∧
    (trim_str input = "e" ∨ trim_str input = "evening" →
      parse_input_with_context input InputContext.modeSelection =
        Action.selectMode SessionMode.evening) ∧
    (trim_str input ≠ "" →
      ¬(trim_str input = "m" ∨ trim_str input = "morning" ∨ trim_str input = "M") →
      ¬(trim_str input = "e" ∨ trim_str input = "evening") →
      parse_input_with_context input InputContext.modeSelection =
        Action.userResponse (trim_str input)) := by
  intro input
  refine ⟨?_, ?_, ?_, ?_⟩
  · intro h
    simp only [parse_input_with_context]
    rw [if_pos h]
  · intro h
    have hne : trim_str input ≠ "" := by
      rcases h with h | h | h <;> (rw [h]; decide)
    simp only [parse_input_with_context]
    rw [if_neg hne, if_pos h]
  · intro h
    have hne : trim_str input ≠ "" := by
      rcases h with h | h <;> (rw [h]; decide)
    have hnm : ¬(trim_str input = "m" ∨ trim_str input = "morning" ∨
        trim_str input = "M") := by
      rcases h with h | h <;> rw [h] <;> decide
    simp only [parse_input_with_context]
    rw [if_neg hne, if_neg hnm, if_pos h]
  · intro h1 h2 h3
    simp only [parse_input_with_context]
    rw [if_neg h1, if_neg h2, if_neg h3]

/-- C7 witness: the theorem applied at the concrete input " M ". -/
theorem C7_mode_selection_parsing_witness :
    (trim_str " M " = "m" ∨ trim_str " M " = "morning" ∨ trim_str " M " = "M") ∧
    parse_input_with_context " M " InputContext.modeSelection =
      Action.selectMode SessionMode.morning :=
  ⟨by decide, (C7_mode_selection_parsing " M ").2.1 (by decide)⟩

/-- Entries whose contents match no mood family are skipped by the
scanning loop. -/
theorem extract_mood_loop_append_none (pre l : List TranscriptEntry)
    (h : ∀ p ∈ pre, mood_keyword_check (lower_str p.content) = none) :
    extract_mood_loop (pre ++ l) = extract_mood_loop l := by
  induction pre with
  | nil => rfl
  | cons e rest ih =>
    have he : mood_keyword_check (lower_str e.content) = none :=
      h e (List.mem_cons_self e rest)
    calc extract_mood_loop (e :: rest ++ l)
        = extract_mood_loop (rest ++ l) := by
          simp only [List.cons_append, extract_mood_loop, he]
          rfl
      _ = extract_mood_loop l :=
          ih (fun p hp => h p (List.mem_cons_of_mem e hp))

/-- When no entry matches any mood family, the scan returns none. -/
theorem extract_mood_loop_all_none (l : List TranscriptEntry)
    (h : ∀ p ∈ l, mood_keyword_check (lower_str p.content) = none) :
    extract_mood_loop l = none := by
  have := extract_mood_loop_append_none l [] h
  rw [List.append_nil] at this
  exact this

/-- C5 counterexample: the session whose single User entry is
"I feel sad but also great" classifies as "positive", although the
earliest sad-family keyword (position 7) strictly precedes the earliest
happy-family keyword (position 20) in the scanned text — under the
claimed first-match-wins-on-keyword-position rule this transcript would
have to classify as "challenging". -/
theorem C5_mood_position_counterexample :
    extract_mood_from_session c5_mixed_session = some "positive" ∧
    family_first_pos (lower_str "I feel sad but also great")
      ["sad", "difficult", "hard"] = some 7 ∧
    family_first_pos (lower_str "I feel sad but also great")
      ["happy", "great", "wonderful"] = some 20 ∧
    (7 : Nat) < 20 := by
  refine ⟨by decide, by decide, by decide, by decide⟩

/-- C5 amended: mood extraction scans only the User-authored entries in
transcript order, and the first User entry containing any mood keyword
decides the mood via the fixed family priority happy over sad over
neutral, irrespective of keyword positions inside the entry; absence of
any match leaves the mood unset. Stated as: the scan result is the
per-entry check of the first keyword-bearing User entry; an entry
containing the happy keyword "great" checks to "positive" regardless of
what else it contains; and a session none of whose User entries match
any family yields none. -/
theorem C5_entry_granular_mood :
    ∀ (s : JournalSession) (pre : List TranscriptEntry)
      (e : TranscriptEntry) (post : List TranscriptEntry),
    (get_user_responses s = pre ++ e :: post →
      (∀ p ∈ pre, mood_keyword_check (lower_str p.content) = none) →
      mood_keyword_check (lower_str e.content) ≠ none →
      extract_mood_from_session s = mood_keyword_check (lower_str e.content)) ∧
    (str_contains (lower_str e.content) "great" = true →
      mood_keyword_check (lower_str e.content) = some "positive") ∧
    ((∀ p ∈ get_user_responses s, mood_keyword_check (lower_str p.content) = none) →
      extract_mood_from_session s = none) := by
  intro s pre e post
  refine ⟨?_, ?_, ?_⟩
  · intro hsplit hpre hne
    unfold extract_mood_from_session
    rw [hsplit, extract_mood_loop_append_none pre (e :: post) hpre]
    simp only [extract_mood_loop]
    cases hc : mood_keyword_check (lower_str e.content) with
    | none => exact absurd hc hne
    | some m => rfl
  · intro hg
    unfold mood_keyword_check
    rw [if_pos]
    rw [hg]
    simp
  · intro h
    exact extract_mood_loop_all_none _ h

/-- C5 witness: the amended theorem applied at the concrete session
whose first User entry is keyword-free and whose second contains
"great". -/
theorem C5_entry_granular_mood_witness :
    get_user_responses c5_session = [c5_entry0] ++ c5_entry1 :: [] ∧
    (∀ p ∈ [c5_entry0], mood_keyword_check (lower_str p.content) = none) ∧
    mood_keyword_check (lower_str c5_entry1.content) ≠ none ∧
    extract_mood_from_session c5_session =
      mood_keyword_check (lower_str c5_entry1.content) :=
  ⟨by decide, by decide, by decide,
   (C5_entry_granular_mood c5_session [c5_entry0] c5_entry1 []).1
     (by decide) (by decide) (by decide)⟩

/-- C9: the transcript is append-only across the reducer. For every
state carrying a session and every action, every session carried by the
returned state or embedded in an emitted effect extends the input
session's transcript: no entry is mutated or removed. -/
theorem C9_transcript_append_only :
    ∀ (now : Timestamp) (fresh : Uuid) (st : State) (a : Action)
      (s0 s1 : JournalSession),
    s0 ∈ state_sessions st →
    s1 ∈ result_sessions (update now fresh st a) →
    ∃ t, s0.transcript ++ t = s1.transcript := by
  intro now fresh st a s0 s1 h0 h1
  cases st <;> cases a <;>
    simp_all [update, result_sessions, state_sessions, effect_sessions,
      error_recovery, JournalSession.add_entry, JournalSession.mark_completed]

/-- C9 witness: the theorem applied at a concrete session, state and
action, with the memberships discharged by evaluation. -/
theorem C9_transcript_append_only_witness :
    JournalSession.new SessionMode.morning ∈
      state_sessions (State.inSession (JournalSession.new SessionMode.morning)) ∧
    (JournalSession.new SessionMode.morning).add_entry 0 Speaker.user "hi" ∈
      result_sessions
        (update 0 "u0" (State.inSession (JournalSession.new SessionMode.morning))
          (Action.userResponse "hi")) ∧
    ∃ t, (JournalSession.new SessionMode.morning).transcript ++ t =
      ((JournalSession.new SessionMode.morning).add_entry 0 Speaker.user "hi").transcript :=
  ⟨by decide, by decide,
   C9_transcript_append_only 0 "u0"
     (State.inSession (JournalSession.new SessionMode.morning))
     (Action.userResponse "hi")
     (JournalSession.new SessionMode.morning)
     ((JournalSession.new SessionMode.morning).add_entry 0 Speaker.user "hi")
     (by decide) (by decide)⟩

end Journal
